import Mathlib

/-!
Verification development for the multi-agent travel planner repository
(flight_booking_agent.py, hotel_booking_agent.py, activity_planner_agent.py,
streamlit.py).  The Python sources are shallowly embedded: pure control flow
is translated into Lean functions, external service boundaries (the JSON
decoder, the Bedrock model calls, the Snowflake query execution, the Cortex
search response shaping) are passed in as function parameters, and the
line-oriented streaming input is a list of strings optionally followed by a
transport exception.
-/

namespace Travel

/-- Python values as produced by the standard library literal evaluator
(ast.literal_eval): None, booleans, integers, strings, lists and dicts. -/
inductive PyVal where
  | none
  | bool (b : Bool)
  | int (n : Int)
  | str (s : String)
  | list (xs : List PyVal)
  | dict (kvs : List (PyVal × PyVal))

/-- JSON values as produced by the standard library decoder json.loads. -/
inductive Json where
  | null
  | bool (b : Bool)
  | num (n : Int)
  | str (s : String)
  | arr (xs : List Json)
  | obj (kvs : List (String × Json))

/-- Python str.startswith on code points. -/
def pyStartsWith (s pre : String) : Bool := pre.data.isPrefixOf s.data

/-- Python str.strip: remove leading and trailing whitespace. -/
def pyStrip (s : String) : String :=
  ⟨((s.data.dropWhile Char.isWhitespace).reverse.dropWhile Char.isWhitespace).reverse⟩

/-- Python slicing s[n:] on code points, as in line[len("data: "):]. -/
def pySlice (s : String) (n : Nat) : String := ⟨s.data.drop n⟩

/-- Key lookup in the association list of a JSON object (first match wins,
as in a Python dict with unique keys). -/
def lookupStr : List (String × Json) → String → Option Json
  | [], _ => Option.none
  | (k, v) :: rest, key => if k == key then some v else lookupStr rest key

/-- Python d[key] for a JSON object; nothing when the key is absent or the
value is not an object. -/
def Json.get? : Json → String → Option Json
  | .obj kvs, key => lookupStr kvs key
  | _, _ => Option.none

/-- Python d.get(key, default) with a JSON default. -/
def Json.getD (j : Json) (key : String) (d : Json) : Json :=
  match j.get? key with
  | some v => v
  | Option.none => d

/-- Value of a key when it is a JSON string. -/
def Json.getStr? (j : Json) (key : String) : Option String :=
  match j.get? key with
  | some (.str s) => some s
  | _ => Option.none

/-- Python d.get(key, default) for string-valued fields, as in
content_item.get("text", ""); a non-string value is modelled by the
default (the source would raise on the subsequent concatenation, a path no
claim exercises). -/
def Json.getStrD (j : Json) (key : String) (d : String) : String :=
  match j.get? key with
  | some (.str s) => s
  | _ => d

/-- Python membership test key in d for a JSON object. -/
def Json.hasKey (j : Json) (key : String) : Bool := (j.get? key).isSome

/-- Python iteration over a JSON value expected to be an array; iterating a
non-array is modelled as the empty iteration. -/
def Json.asArr : Json → List Json
  | .arr xs => xs
  | _ => []

/-- Synthetic error event dictionary yielded by the except branch of
cortex_analyst_sql_stream when the transport raises an exception e
(flight_booking_agent.py lines 154-155, hotel_booking_agent.py lines 74-75). -/
def errEvent (e : String) : Json :=
  Json.obj [("error", Json.str ("Cortex Analyst streaming exception: " ++ e))]

/-- Loop of cortex_analyst_sql_stream (flight_booking_agent.py lines 135-153,
hotel_booking_agent.py lines 56-73), embedded line by line.  The state prev
is the prev_event variable.  The input is the list of lines delivered by
resp.iter_lines, and the final Option String models a transport exception
raised by the iterator after those lines: when the loop finishes the lines
without breaking, a pending exception is caught by the enclosing except and
yields the synthetic error dictionary.  Branch order follows the source: a
line starting with the event label is recorded as the pending event before
the dedicated done test is ever reached. -/
def streamLoop (decode : String → Option Json) :
    Option String → List String → Option String → List Json
  | _, [], Option.none => []
  | _, [], some e => [errEvent e]
  | prev, line :: rest, terr =>
    if pyStrip line == "" then
      streamLoop decode prev rest terr
    else if pyStartsWith line "event:" then
      streamLoop decode (some (pyStrip line)) rest terr
    else if pyStartsWith line "data:" then
      if prev == some "event: message.delta" then
        match decode (pySlice line 6) with
        | some d => d :: streamLoop decode prev rest terr
        | Option.none => streamLoop decode prev rest terr
      else if prev == some "event: error" then
        streamLoop decode prev rest terr
      else
        streamLoop decode prev rest terr
    else if pyStartsWith line "event: done" then
      []
    else
      streamLoop decode prev rest terr

/-- Embedding of cortex_analyst_sql_stream: the generator run to completion,
returning the list of yielded JSON events in order.  The decode parameter
models the external json.loads boundary. -/
def cortex_analyst_sql_stream (decode : String → Option Json)
    (lines : List String) (terr : Option String) : List Json :=
  streamLoop decode Option.none lines terr

/-- JSON value decoded from a message delta carrying one text fragment. -/
def textDelta (t : String) : Json :=
  Json.obj [("delta", Json.obj [("content", Json.arr
    [Json.obj [("type", Json.str "text"), ("text", Json.str t)]])])]

/-- Wire body of a message delta carrying one text fragment. -/
def textPayload (t : String) : String :=
  "\x7b\"delta\":\x7b\"content\":[\x7b\"type\":\"text\",\"text\":\"" ++ t ++
    "\"\x7d]\x7d\x7d"

/-- JSON value decoded from a message delta carrying one tool result whose
json payload has a text interpretation and a generated sql field. -/
def sqlDelta (i q : String) : Json :=
  Json.obj [("delta", Json.obj [("content", Json.arr
    [Json.obj [("type", Json.str "tool_results"),
      ("tool_results", Json.obj [("content", Json.arr
        [Json.obj [("type", Json.str "json"),
          ("json", Json.obj [("text", Json.str i), ("sql", Json.str q)])]])])]])])]

/-- Wire body of a message delta carrying one tool result with text and sql
fields. -/
def sqlPayload (i q : String) : String :=
  "\x7b\"delta\":\x7b\"content\":[\x7b\"type\":\"tool_results\",\"tool_results\":" ++
    "\x7b\"content\":[\x7b\"type\":\"json\",\"json\":\x7b\"text\":\"" ++ i ++
    "\",\"sql\":\"" ++ q ++ "\"\x7d\x7d]\x7d\x7d]\x7d\x7d"

/-- Model of the external JSON decoder json.loads at the concrete payload
bodies used in the scenarios of this development; every other body is
treated as malformed (json.loads raises, yielding nothing). -/
def scenarioDecode (s : String) : Option Json :=
  if s == textPayload "Hi" then some (textDelta "Hi")
  else if s == textPayload "Bye" then some (textDelta "Bye")
  else if s == sqlPayload "interpA" "SELECT A" then some (sqlDelta "interpA" "SELECT A")
  else if s == sqlPayload "interpB" "SELECT B" then some (sqlDelta "interpB" "SELECT B")
  else Option.none

/-- Tabular query result: named columns and ordered rows, modelling the
pandas dataframe returned by cursor.fetch_pandas_all. -/
structure Table where
  cols : List String
  rows : List (List String)
deriving DecidableEq

/-- Pandas df.empty: the frame holds no rows. -/
def Table.isEmptyT (t : Table) : Bool := t.rows.isEmpty

/-- Pandas column assignment df[name] = v: appends a constant column. -/
def Table.addCol (t : Table) (name v : String) : Table :=
  ⟨t.cols ++ [name], t.rows.map (fun r => r ++ [v])⟩

/-- Python truthiness of a JSON value, as tested by if not sql_code. -/
def pyTruthy : Json → Bool
  | .null => false
  | .bool b => b
  | .num n => !(n == 0)
  | .str s => !(s == "")
  | .arr xs => !xs.isEmpty
  | .obj kvs => !kvs.isEmpty

/-- Python truthiness of an optional JSON value (the sql_code variable is
initialised to None). -/
def pyTruthyOpt : Option Json → Bool
  | Option.none => false
  | some j => pyTruthy j

/-- The five components returned by the flight and hotel agent closures:
streamed text, interpretation, generated sql, ranked best option, and
result table.  Interpretation and sql hold the raw JSON field values the
loop assigned, as in the source. -/
structure AgentResult where
  streamed_text : String
  interpretation : Option Json
  sql_code : Option Json
  best_option : Option String
  df : Option Table

/-- Inner loop over one tool_results content list (flight_booking_agent.py
lines 223-229, hotel_booking_agent.py lines 179-185): each json-typed
result overwrites the interpretation with its text field and the sql code
with its sql field, when present. -/
def procToolResult (acc : Option Json × Option Json) (r : Json) :
    Option Json × Option Json :=
  if r.getStr? "type" == some "json" then
    let jd := r.getD "json" (Json.obj [])
    let i := match jd.get? "text" with
      | some v => some v
      | Option.none => acc.1
    let s := match jd.get? "sql" with
      | some v => some v
      | Option.none => acc.2
    (i, s)
  else acc

/-- Loop body over one content item of a delta (flight_booking_agent.py
lines 218-229): a text item extends the streamed text, a tool_results item
folds over its inner content. -/
def procContentItem (acc : String × Option Json × Option Json) (item : Json) :
    String × Option Json × Option Json :=
  let (st, interp, sql) := acc
  if item.getStr? "type" == some "text" then
    (st ++ item.getStrD "text" "", interp, sql)
  else if item.getStr? "type" == some "tool_results" then
    let tr := item.getD "tool_results" (Json.obj [])
    let (i, s) := (tr.getD "content" (Json.arr [])).asArr.foldl procToolResult (interp, sql)
    (st, i, s)
  else
    (st, interp, sql)

/-- Outcome of draining the streamed events (the for loop of the agent
closures): either an early return triggered by an event carrying an error
key, or normal completion with the accumulated state. -/
inductive DrainOut where
  | errored (streamed_text : String) (interp : Option Json)
  | finished (streamed_text : String) (interp : Option Json) (sql : Option Json)

/-- The for loop over the streamed events in the agent closures
(flight_booking_agent.py lines 213-229, hotel_booking_agent.py lines
169-185): an event with an error key causes an immediate return with the
text gathered so far and null remaining fields; otherwise the delta content
items are folded into the accumulators. -/
def drainEvents : List Json → String → Option Json → Option Json → DrainOut
  | [], st, interp, sql => .finished st interp sql
  | d :: rest, st, interp, sql =>
    if d.hasKey "error" then
      .errored st interp
    else
      let content := ((d.getD "delta" (Json.obj [])).getD "content" (Json.arr [])).asArr
      let (st', interp', sql') := content.foldl procContentItem (st, interp, sql)
      drainEvents rest st' interp' sql'

/-- The agent closure shared verbatim by create_flight_booking_agent
(flight_booking_agent.py lines 207-239) and create_hotel_booking_agent
(hotel_booking_agent.py lines 164-193).  External boundaries are
parameters: decode is json.loads, runSql is run_sql_on_snowflake (whose own
try block converts any failure into no table), rank is the Bedrock best
option call get_best_flight_from_claude or get_best_hotel_from_claude,
which carries no exception handler in the source, so a raise there
propagates out of the closure; lines and terr describe the streamed input
as for cortex_analyst_sql_stream. -/
def booking_agent_run (decode : String → Option Json)
    (runSql : Json → Option Table)
    (rank : Table → String → Except String String)
    (lines : List String) (terr : Option String)
    (query : String) : Except String AgentResult :=
  match drainEvents (cortex_analyst_sql_stream decode lines terr) "" Option.none Option.none with
  | .errored st interp => .ok ⟨st, interp, Option.none, Option.none, Option.none⟩
  | .finished st interp sql =>
    if !pyTruthyOpt sql then
      .ok ⟨st, interp, Option.none, Option.none, Option.none⟩
    else
      match runSql (sql.getD Json.null) with
      | Option.none => .ok ⟨st, interp, sql, Option.none, Option.none⟩
      | some t =>
        if t.isEmptyT then
          .ok ⟨st, interp, sql, Option.none, some t⟩
        else
          match rank t query with
          | .ok best => .ok ⟨st, interp, sql, some best, some t⟩
          | .error e => .error e

/-- Flight agent closure (create_flight_booking_agent in
flight_booking_agent.py lines 207-239). -/
def create_flight_booking_agent (decode : String → Option Json)
    (runSql : Json → Option Table) (rank : Table → String → Except String String)
    (lines : List String) (terr : Option String) (query : String) :
    Except String AgentResult :=
  booking_agent_run decode runSql rank lines terr query

/-- Hotel agent closure (create_hotel_booking_agent in
hotel_booking_agent.py lines 164-193), textually identical to the flight
agent closure. -/
def create_hotel_booking_agent (decode : String → Option Json)
    (runSql : Json → Option Table) (rank : Table → String → Except String String)
    (lines : List String) (terr : Option String) (query : String) :
    Except String AgentResult :=
  booking_agent_run decode runSql rank lines terr query

mutual

/-- Python repr of a literal value, used by str() on non-string values. -/
def PyVal.reprV : PyVal → String
  | .none => "None"
  | .bool true => "True"
  | .bool false => "False"
  | .int n => toString n
  | .str s => "'" ++ s ++ "'"
  | .list xs => "[" ++ PyVal.reprListV xs ++ "]"
  | .dict kvs => "\x7b" ++ PyVal.reprKvs kvs ++ "\x7d"

/-- Comma separated reprs of list elements. -/
def PyVal.reprListV : List PyVal → String
  | [] => ""
  | [x] => PyVal.reprV x
  | x :: xs => PyVal.reprV x ++ ", " ++ PyVal.reprListV xs

/-- Comma separated reprs of dict entries. -/
def PyVal.reprKvs : List (PyVal × PyVal) → String
  | [] => ""
  | [(k, v)] => PyVal.reprV k ++ ": " ++ PyVal.reprV v
  | (k, v) :: kvs => PyVal.reprV k ++ ": " ++ PyVal.reprV v ++ ", " ++ PyVal.reprKvs kvs

end

/-- Python built-in str() applied to a literal value, as in the city list
coercion str(city) of extract_cities_with_claude. -/
def pyStr : PyVal → String
  | .str s => s
  | v => PyVal.reprV v

/-- Embedding of extract_trip_info_with_claude
(activity_planner_agent.py lines 39-72).  The litEval parameter models the
standard library ast.literal_eval, yielding nothing when it raises; the
model parameter is the Bedrock invocation boundary, mapping the user query
to the returned text block (lines 47-65).  The source strips the text,
attempts a literal parse and returns any parsed dict as is; every other
outcome falls through to the fixed default dict. -/
def extract_trip_info_with_claude (litEval : String → Option PyVal)
    (model : String → String) (user_query : String) : PyVal :=
  let text := pyStrip (model user_query)
  match litEval text with
  | some (PyVal.dict kvs) => PyVal.dict kvs
  | _ => PyVal.dict [(PyVal.str "source_city", PyVal.str ""),
      (PyVal.str "dest_cities", PyVal.list []),
      (PyVal.str "duration", PyVal.none)]

/-- The documented default of the trip intent extraction. -/
def defaultTripInfo : PyVal :=
  PyVal.dict [(PyVal.str "source_city", PyVal.str ""),
    (PyVal.str "dest_cities", PyVal.list []),
    (PyVal.str "duration", PyVal.none)]

/-- Embedding of extract_cities_with_claude (hotel_booking_agent.py lines
128-161): strip the model text, attempt a literal parse, and when the value
is a list return its elements coerced through str(); every other outcome
yields the empty list. -/
def extract_cities_with_claude (litEval : String → Option PyVal)
    (model : String → String) (user_query : String) : List String :=
  let text := pyStrip (model user_query)
  match litEval text with
  | some (PyVal.list xs) => xs.map pyStr
  | _ => []

/-- Key lookup in a literal dict by string key, as in trip_info.get. -/
def pyDictGet : List (PyVal × PyVal) → String → Option PyVal
  | [], _ => Option.none
  | (PyVal.str k, v) :: rest, key =>
    if k == key then some v else pyDictGet rest key
  | _ :: rest, key => pyDictGet rest key

/-- Python trip_info.get(key, default) on the extracted value; a non-dict
receiver never occurs because the extraction always returns a dict. -/
def PyVal.getD (p : PyVal) (key : String) (d : PyVal) : PyVal :=
  match p with
  | .dict kvs =>
    match pyDictGet kvs key with
    | some v => v
    | Option.none => d
  | _ => d

/-- String content of a literal value expected to be a string, with a
default for the other cases (the source would raise on a non-string
source_city when stripping it, a path no claim exercises). -/
def PyVal.asStrD (p : PyVal) (d : String) : String :=
  match p with
  | .str s => s
  | _ => d

/-- String elements of a literal value expected to be a list of strings, as
iterated by the destination city comprehension; non-string elements are
dropped (the source would raise on them, a path no claim exercises). -/
def PyVal.strElems : PyVal → List String
  | .list xs => xs.filterMap (fun v => match v with
      | PyVal.str s => some s
      | _ => Option.none)
  | _ => []

/-- Python str.lower restricted to the character-wise mapping. -/
def pyLower (s : String) : String := ⟨s.data.map Char.toLower⟩

/-- Concatenation of the per-city activity frames, modelling
pd.concat(all_activities, ignore_index=True): the rows are chained in
order under the first frame's columns. -/
def concatTables : List Table → Table
  | [] => ⟨[], []⟩
  | t :: ts => ⟨t.cols, (t :: ts).foldr (fun u acc => u.rows ++ acc) []⟩

/-- Embedding of the agent closure of create_activity_planner_agent
(activity_planner_agent.py lines 109-163).  External boundaries are
parameters: litEval and model feed the trip intent extraction, contextStr
is the memory context returned by get_recent_context (bound and unused, as
in the source), searchDf maps each per-city Cortex search query to the
optional dataframe obtained by the response shaping of lines 128-148, and
planFn is the Bedrock day-wise plan call get_daywise_plan_from_claude
applied to the aggregated table, the user query, the source city and the
destination cities.  The closure returns the four components of line 162. -/
def create_activity_planner_agent (litEval : String → Option PyVal)
    (model : String → String) (contextStr : String)
    (searchDf : String → Option Table)
    (planFn : Table → String → String → List String → String)
    (user_query : String) : String × String × String × Table :=
  let _context := contextStr
  let trip_info := extract_trip_info_with_claude litEval model user_query
  let source_city := (trip_info.getD "source_city" (PyVal.str "")).asStrD ""
  let dest_cities0 := (trip_info.getD "dest_cities" (PyVal.list [])).strElems
  let duration := trip_info.getD "duration" PyVal.none
  let dest_cities := dest_cities0.filter
    (fun city => !(pyLower (pyStrip city) == pyLower (pyStrip source_city)))
  let all_activities := dest_cities.foldl (fun acc city =>
    let cortex_query := "Find activities and experiences for a traveler in " ++
      city ++ ". Trip duration: " ++ pyStr duration ++ " days."
    match searchDf cortex_query with
    | some df => if !df.isEmptyT then acc ++ [df.addCol "CITY" city] else acc
    | Option.none => acc) []
  let activities_df :=
    if !all_activities.isEmpty then concatTables all_activities else ⟨[], []⟩
  let plan_md :=
    if !activities_df.isEmptyT then
      planFn activities_df user_query source_city dest_cities
    else
      "No activities found."
  ("", "", plan_md, activities_df)

/-- Module-level actor identity in streamlit.py line 29, passed to every
agent factory. -/
def ACTOR_ID : String := "flight_user_001"

/-- Module-level session identity in streamlit.py line 30, passed to every
agent factory. -/
def SESSION_ID : String := "flight_session_001"

/-- Identity arguments handed to one agent factory call in streamlit.py. -/
structure AgentCtorArgs where
  actor_id : String
  session_id : String
deriving DecidableEq

/-- Arguments of the flight agent construction (streamlit.py line 32). -/
def flight_agent_args : AgentCtorArgs := ⟨ACTOR_ID, SESSION_ID⟩

/-- Arguments of the hotel agent construction (streamlit.py line 33); the
one hotel agent is reused for every destination city. -/
def hotel_agent_args : AgentCtorArgs := ⟨ACTOR_ID, SESSION_ID⟩

/-- Arguments of the activity agent construction (streamlit.py line 34). -/
def activity_agent_args : AgentCtorArgs := ⟨ACTOR_ID, SESSION_ID⟩

/-- Hotel query text built for one destination city (streamlit.py line 46). -/
def hotelQuery (city : String) : String := "Find hotels in " ++ city

/-- Fan-out of the per-city hotel tasks dispatched by main (streamlit.py
lines 43-46) and fan-in of their results in order (lines 72-73): one hotel
agent execution per destination city, each on its own streamed input, the
aggregate keeping one entry per city.  The streamOf parameter gives the
streamed lines and optional transport exception of each task's underlying
request. -/
def hotel_fanout (decode : String → Option Json) (runSql : Json → Option Table)
    (rank : Table → String → Except String String)
    (streamOf : String → List String × Option String)
    (cities : List String) : List (Except String AgentResult) :=
  cities.map (fun city =>
    create_hotel_booking_agent decode runSql rank
      (streamOf (hotelQuery city)).1 (streamOf (hotelQuery city)).2
      (hotelQuery city))

/-- Model of ast.literal_eval at the concrete texts used in the scenarios
of this development; every other text is treated as unparseable
(literal_eval raises, yielding nothing). -/
def scenarioLitEval (s : String) : Option PyVal :=
  if s == "\x7b'source_city': 'Delhi', 'dest_cities': ['Mumbai','Pune'], 'duration': 5\x7d" then
    some (PyVal.dict [(PyVal.str "source_city", PyVal.str "Delhi"),
      (PyVal.str "dest_cities", PyVal.list [PyVal.str "Mumbai", PyVal.str "Pune"]),
      (PyVal.str "duration", PyVal.int 5)])
  else if s == "\x7b'foo': 1\x7d" then
    some (PyVal.dict [(PyVal.str "foo", PyVal.int 1)])
  else if s == "[1, 2]" then
    some (PyVal.list [PyVal.int 1, PyVal.int 2])
  else
    Option.none

/-- Success test on a fallible outcome, distinguishing a returned value
from a propagated exception. -/
def isOkE {ε α : Type} : Except ε α → Bool
  | .ok _ => true
  | .error _ => false

/-- Test whether a literal parse outcome is a dict, the only coarse shape
test performed by the trip intent extraction. -/
def isSomeDict : Option PyVal → Bool
  | some (PyVal.dict _) => true
  | _ => false

/-- Test whether a literal parse outcome is a list, the only coarse shape
test performed by the city extraction. -/
def isSomeList : Option PyVal → Bool
  | some (PyVal.list _) => true
  | _ => false

/-- Content items of one streamed delta event, stated after the spec: the
items of the delta content list. -/
def itemsOf (e : Json) : List Json :=
  ((e.getD "delta" (Json.obj [])).getD "content" (Json.arr [])).asArr

/-- Text fragment contributed by one content item, stated after the spec:
the text of a text typed item and nothing otherwise. -/
def textOfItem (item : Json) : String :=
  if item.getStr? "type" == some "text" then item.getStrD "text" "" else ""

/-- Concatenation of a list of strings in order. -/
def concatStrs (l : List String) : String := l.foldr (fun a b => a ++ b) ""

/-- All streamed text of a list of events in arrival order, stated after
the spec clause on accumulating the text deltas. -/
def textsOf (events : List Json) : String :=
  concatStrs (events.map (fun e => concatStrs ((itemsOf e).map textOfItem)))

/-- Json payloads of the tool results carried by one content item. -/
def toolJsonsOfItem (item : Json) : List Json :=
  if item.getStr? "type" == some "tool_results" then
    ((((item.getD "tool_results" (Json.obj [])).getD "content" (Json.arr [])).asArr.filter
      (fun r => r.getStr? "type" == some "json")).map (fun r => r.getD "json" (Json.obj [])))
  else []

/-- Json payloads of all tool results of a list of events, in arrival
order. -/
def toolJsonsOf (events : List Json) : List Json :=
  (events.map (fun e => ((itemsOf e).map toolJsonsOfItem).flatten)).flatten

/-- Most recent value of a field among tool result payloads, starting from
a prior value: a later occurrence of the key overrides an earlier one. -/
def lastFieldFrom (key : String) (init : Option Json) (jds : List Json) : Option Json :=
  jds.foldl (fun acc jd => match jd.get? key with
    | some v => some v
    | Option.none => acc) init

/-- Concrete stream source for the fan-out witness: the Mumbai hotel task
suffers a transport error before any line arrives, every other task
receives one tool result line carrying a generated query. -/
def witnessStreamOf (q : String) : List String × Option String :=
  if q == "Find hotels in Mumbai" then ([], some "connection reset")
  else (["event: message.delta", "data: " ++ sqlPayload "interpA" "SELECT A"],
    Option.none)

/-- Concrete query execution for the fan-out witness. -/
def witnessRunSql : Json → Option Table := fun _ => some ⟨["C"], [["v"]]⟩

/-- Concrete ranking call for the fan-out witness. -/
def witnessRank : Table → String → Except String String := fun _ _ => .ok "best"

/-- C1: the scenario stream yields exactly one text delta and then ends,
but only because the input is exhausted, not because the done event stops
the parse: extending the same stream with lines after the done event shows
the parser keeps reading and yielding.  The dedicated done branch of the
source is unreachable, being shadowed by the general event-label branch
that merely records the line as the pending event kind. -/
theorem done_event_lines_still_read :
    cortex_analyst_sql_stream scenarioDecode
      ["event: message.delta", "data: " ++ textPayload "Hi", "event: done"]
      Option.none = [textDelta "Hi"] ∧
    cortex_analyst_sql_stream scenarioDecode
      ["event: message.delta", "data: " ++ textPayload "Hi", "event: done",
       "event: message.delta", "data: " ++ textPayload "Bye"]
      Option.none = [textDelta "Hi", textDelta "Bye"] :=
  ⟨rfl, rfl⟩

/-- C3 counterexample: on the stream consisting of an error event label
followed by a data line, the parser yields no event at all, so no
ErrorEvent with the payload is delivered to the consumer; the source only
prints the line. -/
theorem error_kind_data_line_not_delivered :
    cortex_analyst_sql_stream scenarioDecode ["event: error", "data: oops"]
      Option.none = [] :=
  rfl

/-- C3 amended: a data line whose most recently seen pending event kind is
the error kind is dropped after being logged; the parser emits nothing for
it and the output is exactly the output of the remaining lines. -/
theorem error_kind_data_line_dropped (decode : String → Option Json)
    (line : String) (rest : List String) (terr : Option String)
    (h1 : (pyStrip line == "") = false)
    (h2 : pyStartsWith line "event:" = false)
    (h3 : pyStartsWith line "data:" = true) :
    streamLoop decode (some "event: error") (line :: rest) terr =
      streamLoop decode (some "event: error") rest terr := by
  rw [streamLoop]
  simp [h1, h2, h3]

/-- Witness for the amended C3 statement at a concrete error-kind data
line. -/
theorem error_kind_data_line_dropped_witness :
    (pyStrip "data: oops" == "") = false ∧
    pyStartsWith "data: oops" "event:" = false ∧
    pyStartsWith "data: oops" "data:" = true ∧
    streamLoop scenarioDecode (some "event: error") ["data: oops"] Option.none =
      streamLoop scenarioDecode (some "event: error") [] Option.none :=
  ⟨by decide, by decide, by decide,
    error_kind_data_line_dropped scenarioDecode "data: oops" [] Option.none
      (by decide) (by decide) (by decide)⟩

/-- C8 counterexample: the flight, hotel and activity agent factories all
receive the same actor identity, so the actor ids of the logical sub-agents
are not distinct. -/
theorem actor_ids_not_distinct :
    flight_agent_args.actor_id = hotel_agent_args.actor_id ∧
    hotel_agent_args.actor_id = activity_agent_args.actor_id :=
  ⟨rfl, rfl⟩

/-- C8 amended: every sub-agent is constructed with the single shared actor
id and the single shared session id of streamlit.py, so all memory reads
and writes are scoped to one shared ActorSession. -/
theorem all_agents_share_one_actor_session :
    flight_agent_args = ⟨"flight_user_001", "flight_session_001"⟩ ∧
    hotel_agent_args = ⟨"flight_user_001", "flight_session_001"⟩ ∧
    activity_agent_args = ⟨"flight_user_001", "flight_session_001"⟩ :=
  ⟨rfl, rfl, rfl⟩

/-- C4 counterexample: a model text that parses to a dict without the
required keys is returned as is, not replaced by the documented default;
and a model text that parses to a list of non-text elements is returned
with the elements coerced to strings, not replaced by the empty list. -/
theorem shape_mismatch_not_defaulted :
    extract_trip_info_with_claude scenarioLitEval (fun _ => "\x7b'foo': 1\x7d") "q" =
      PyVal.dict [(PyVal.str "foo", PyVal.int 1)] ∧
    PyVal.dict [(PyVal.str "foo", PyVal.int 1)] ≠ defaultTripInfo ∧
    extract_cities_with_claude scenarioLitEval (fun _ => "[1, 2]") "q" = ["1", "2"] ∧
    (["1", "2"] : List String) ≠ [] :=
  ⟨rfl, by simp [defaultTripInfo], rfl, by simp⟩

/-- C4 amended: when the strict literal parse fails, or yields a value that
is not a dict (for trip intent) respectively not a list (for cities), the
chain returns the documented default; being total functions, the embedded
chains never raise.  The source checks only the coarse container type: a
parsed dict is accepted regardless of its keys and a parsed list regardless
of its element types, as the counterexample records. -/
theorem extraction_coarse_shape_default (litEval : String → Option PyVal)
    (model1 model2 : String → String) (q1 q2 : String)
    (h1 : isSomeDict (litEval (pyStrip (model1 q1))) = false)
    (h2 : isSomeList (litEval (pyStrip (model2 q2))) = false) :
    extract_trip_info_with_claude litEval model1 q1 = defaultTripInfo ∧
    extract_cities_with_claude litEval model2 q2 = [] := by
  constructor
  · cases hv : litEval (pyStrip (model1 q1)) with
    | none => simp [extract_trip_info_with_claude, defaultTripInfo, hv]
    | some v =>
      cases v with
      | dict kvs => rw [hv] at h1; simp [isSomeDict] at h1
      | none => simp [extract_trip_info_with_claude, defaultTripInfo, hv]
      | bool b => simp [extract_trip_info_with_claude, defaultTripInfo, hv]
      | int n => simp [extract_trip_info_with_claude, defaultTripInfo, hv]
      | str s => simp [extract_trip_info_with_claude, defaultTripInfo, hv]
      | list xs => simp [extract_trip_info_with_claude, defaultTripInfo, hv]
  · cases hv : litEval (pyStrip (model2 q2)) with
    | none => simp [extract_cities_with_claude, hv]
    | some v =>
      cases v with
      | list xs => rw [hv] at h2; simp [isSomeList] at h2
      | none => simp [extract_cities_with_claude, hv]
      | bool b => simp [extract_cities_with_claude, hv]
      | int n => simp [extract_cities_with_claude, hv]
      | str s => simp [extract_cities_with_claude, hv]
      | dict kvs => simp [extract_cities_with_claude, hv]

/-- Witness for the amended C4 statement at the scenario text that is not
a literal value at all. -/
theorem extraction_coarse_shape_default_witness :
    isSomeDict (scenarioLitEval (pyStrip "I cannot determine this.")) = false ∧
    isSomeList (scenarioLitEval (pyStrip "I cannot determine this.")) = false ∧
    (extract_trip_info_with_claude scenarioLitEval
        (fun _ => "I cannot determine this.") "q" = defaultTripInfo ∧
      extract_cities_with_claude scenarioLitEval
        (fun _ => "I cannot determine this.") "q" = []) :=
  ⟨by decide, by decide,
    extraction_coarse_shape_default scenarioLitEval
      (fun _ => "I cannot determine this.") (fun _ => "I cannot determine this.")
      "q" "q" (by decide) (by decide)⟩

/-- C9: a model text that literal-parses to a mapping with the three
expected keys is returned unchanged by the trip intent extraction. -/
theorem trip_info_roundtrip (litEval : String → Option PyVal)
    (model : String → String) (q : String) (kvs : List (PyVal × PyVal))
    (h : litEval (pyStrip (model q)) = some (PyVal.dict kvs))
    (hk1 : (pyDictGet kvs "source_city").isSome = true)
    (hk2 : (pyDictGet kvs "dest_cities").isSome = true)
    (hk3 : (pyDictGet kvs "duration").isSome = true) :
    extract_trip_info_with_claude litEval model q = PyVal.dict kvs := by
  simp [extract_trip_info_with_claude, h]

/-- Witness for C9 at the Delhi scenario mapping text. -/
theorem trip_info_roundtrip_witness :
    scenarioLitEval (pyStrip
        "\x7b'source_city': 'Delhi', 'dest_cities': ['Mumbai','Pune'], 'duration': 5\x7d") =
      some (PyVal.dict [(PyVal.str "source_city", PyVal.str "Delhi"),
        (PyVal.str "dest_cities", PyVal.list [PyVal.str "Mumbai", PyVal.str "Pune"]),
        (PyVal.str "duration", PyVal.int 5)]) ∧
    extract_trip_info_with_claude scenarioLitEval
      (fun _ => "\x7b'source_city': 'Delhi', 'dest_cities': ['Mumbai','Pune'], 'duration': 5\x7d")
      "plan a trip" =
      PyVal.dict [(PyVal.str "source_city", PyVal.str "Delhi"),
        (PyVal.str "dest_cities", PyVal.list [PyVal.str "Mumbai", PyVal.str "Pune"]),
        (PyVal.str "duration", PyVal.int 5)] :=
  ⟨rfl,
    trip_info_roundtrip scenarioLitEval
      (fun _ => "\x7b'source_city': 'Delhi', 'dest_cities': ['Mumbai','Pune'], 'duration': 5\x7d")
      "plan a trip" _ rfl (by decide) (by decide) (by decide)⟩

/-- C2 counterexample: with a stream that produces a generated query, a
non-empty result table, and a ranking call that raises, the pipeline
propagates the exception instead of returning a result with a null ranked
summary; the source wraps the best-option call in no handler. -/
theorem ranking_failure_propagates :
    create_flight_booking_agent scenarioDecode
      (fun _ => some ⟨["COL"], [["v"]]⟩)
      (fun _ _ => .error "bedrock unavailable")
      ["event: message.delta", "data: " ++ sqlPayload "interpA" "SELECT A"]
      Option.none "best flight" = .error "bedrock unavailable" :=
  rfl

/-- C2 amended: the streaming step and the query execution step absorb
their failures (an error event ends the pipeline early with null fields and
a failed query degrades to a null result set), and the pipeline returns
exactly one result for every query, provided the ranking call does not
raise; an exception of the ranking call propagates past the pipeline
boundary, as the counterexample records. -/
theorem pipeline_total_when_rank_ok (decode : String → Option Json)
    (runSql : Json → Option Table) (rank : Table → String → Except String String)
    (lines : List String) (terr : Option String) (query : String)
    (h : ∀ t, isOkE (rank t query) = true) :
    isOkE (booking_agent_run decode runSql rank lines terr query) = true := by
  unfold booking_agent_run
  cases drainEvents (cortex_analyst_sql_stream decode lines terr) "" Option.none Option.none with
  | errored st interp => rfl
  | finished st interp sql =>
    by_cases hs : (!pyTruthyOpt sql) = true
    · simp only [hs, if_true]; rfl
    · simp only [hs, if_false, Bool.false_eq_true]
      cases runSql (sql.getD Json.null) with
      | none => rfl
      | some t =>
        by_cases he : t.isEmptyT = true
        · simp only [he, if_true]; rfl
        · simp only [he, if_false, Bool.false_eq_true]
          cases hr : rank t query with
          | ok b => rfl
          | error e => have hh := h t; rw [hr] at hh; exact hh

/-- Witness for the amended C2 statement with a ranking call that always
returns. -/
theorem pipeline_total_when_rank_ok_witness :
    (∀ t, isOkE (((fun _ _ => Except.ok "top three") :
        Table → String → Except String String) t "best flight") = true) ∧
    isOkE (booking_agent_run scenarioDecode (fun _ => some ⟨["COL"], [["v"]]⟩)
      (fun _ _ => Except.ok "top three")
      ["event: message.delta", "data: " ++ sqlPayload "interpA" "SELECT A"]
      Option.none "best flight") = true :=
  ⟨fun _ => rfl,
    pipeline_total_when_rank_ok scenarioDecode (fun _ => some ⟨["COL"], [["v"]]⟩)
      (fun _ _ => Except.ok "top three")
      ["event: message.delta", "data: " ++ sqlPayload "interpA" "SELECT A"]
      Option.none "best flight" (fun _ => rfl)⟩

/-- C5 counterexample: when two tool result payloads carrying generated
queries arrive in one stream, the pipeline records the second one as its
generated query and interpretation, not the first: the loop overwrites the
captured fields on every json typed tool result. -/
theorem last_tool_result_payload_wins :
    create_flight_booking_agent scenarioDecode (fun _ => Option.none)
      (fun _ _ => .ok "")
      ["event: message.delta", "data: " ++ sqlPayload "interpA" "SELECT A",
       "event: message.delta", "data: " ++ sqlPayload "interpB" "SELECT B"]
      Option.none "q" =
      .ok ⟨"", some (Json.str "interpB"), some (Json.str "SELECT B"),
        Option.none, Option.none⟩ ∧
    Json.str "SELECT B" ≠ Json.str "SELECT A" :=
  ⟨rfl, by simp⟩

/-- Appending tool result payloads folds on the left of the last-field
scan. -/
theorem lastFieldFrom_append (key : String) (i : Option Json) (a b : List Json) :
    lastFieldFrom key i (a ++ b) = lastFieldFrom key (lastFieldFrom key i a) b := by
  simp [lastFieldFrom, List.foldl_append]

/-- Folding the inner tool result loop equals a last-field scan of the
json payloads of the json typed results. -/
theorem foldl_procToolResult_spec (results : List Json) : ∀ (i s : Option Json),
    results.foldl procToolResult (i, s) =
      (lastFieldFrom "text" i
        ((results.filter (fun r => r.getStr? "type" == some "json")).map
          (fun r => r.getD "json" (Json.obj []))),
       lastFieldFrom "sql" s
        ((results.filter (fun r => r.getStr? "type" == some "json")).map
          (fun r => r.getD "json" (Json.obj [])))) := by
  induction results with
  | nil => intro i s; rfl
  | cons r rs ih =>
    intro i s
    by_cases hr : (r.getStr? "type" == some "json") = true
    · rw [List.foldl_cons, procToolResult, if_pos hr]
      rw [ih]
      simp [List.filter_cons, hr, lastFieldFrom]
    · rw [List.foldl_cons, procToolResult, if_neg hr]
      rw [ih]
      simp [List.filter_cons, hr]

/-- One content item behaves as its text fragment plus a last-field scan
of its tool result payloads. -/
theorem procContentItem_spec (st : String) (i s : Option Json) (item : Json) :
    procContentItem (st, i, s) item =
      (st ++ textOfItem item,
       lastFieldFrom "text" i (toolJsonsOfItem item),
       lastFieldFrom "sql" s (toolJsonsOfItem item)) := by
  by_cases ht : (item.getStr? "type" == some "text") = true
  · have hnt : (item.getStr? "type" == some "tool_results") = false := by
      rw [beq_iff_eq] at ht
      simp [ht]
    rw [procContentItem]
    simp [ht, textOfItem, toolJsonsOfItem, hnt, lastFieldFrom]
  · by_cases htr : (item.getStr? "type" == some "tool_results") = true
    · rw [procContentItem]
      simp only [ht, htr, if_false, if_true, Bool.false_eq_true]
      rw [foldl_procToolResult_spec]
      simp [textOfItem, ht, toolJsonsOfItem, htr]
    · rw [procContentItem]
      simp [ht, htr, textOfItem, toolJsonsOfItem, lastFieldFrom]

/-- Folding a whole content list accumulates the text fragments in order
and performs a last-field scan of all tool result payloads. -/
theorem foldl_procContentItem_spec (content : List Json) : ∀ (st : String) (i s : Option Json),
    content.foldl procContentItem (st, i, s) =
      (st ++ concatStrs (content.map textOfItem),
       lastFieldFrom "text" i ((content.map toolJsonsOfItem).flatten),
       lastFieldFrom "sql" s ((content.map toolJsonsOfItem).flatten)) := by
  induction content with
  | nil => intro st i s; simp [concatStrs, lastFieldFrom]
  | cons item items ih =>
    intro st i s
    rw [List.foldl_cons, procContentItem_spec, ih]
    simp [concatStrs, lastFieldFrom_append, String.append_assoc]

/-- Draining events with no error key finishes with the accumulated text
and the most recent text and sql fields seen among the tool result
payloads. -/
theorem drainEvents_spec (events : List Json) : ∀ (st : String) (i s : Option Json),
    (∀ e ∈ events, e.hasKey "error" = false) →
    drainEvents events st i s =
      .finished (st ++ textsOf events)
        (lastFieldFrom "text" i (toolJsonsOf events))
        (lastFieldFrom "sql" s (toolJsonsOf events)) := by
  induction events with
  | nil =>
    intro st i s _
    simp [drainEvents, textsOf, toolJsonsOf, concatStrs, lastFieldFrom]
  | cons d rest ih =>
    intro st i s h
    have hd : d.hasKey "error" = false := h d (by simp)
    rw [drainEvents]
    simp only [hd, Bool.false_eq_true, if_false]
    rw [foldl_procContentItem_spec]
    rw [ih _ _ _ (fun e he => h e (by simp [he]))]
    simp [textsOf, toolJsonsOf, itemsOf, concatStrs, lastFieldFrom_append,
      String.append_assoc]

/-- C5 amended: over a stream with no error event, the drain loop of the
pipeline accumulates all streamed text fragments in order, and captures as
interpretation and generated query the most recently seen text and sql
fields among the tool result payloads: a later payload overrides an
earlier one, so the last payload carrying the field wins, not the first. -/
theorem drain_accumulates_text_and_last_fields (events : List Json)
    (h : ∀ e ∈ events, e.hasKey "error" = false) :
    drainEvents events "" Option.none Option.none =
      .finished (textsOf events)
        (lastFieldFrom "text" Option.none (toolJsonsOf events))
        (lastFieldFrom "sql" Option.none (toolJsonsOf events)) := by
  have hs := drainEvents_spec events "" Option.none Option.none h
  simpa using hs

/-- Witness for the amended C5 statement on a two-payload stream. -/
theorem drain_accumulates_text_and_last_fields_witness :
    (∀ e ∈ [sqlDelta "interpA" "SELECT A", sqlDelta "interpB" "SELECT B"],
      e.hasKey "error" = false) ∧
    drainEvents [sqlDelta "interpA" "SELECT A", sqlDelta "interpB" "SELECT B"]
        "" Option.none Option.none =
      .finished (textsOf [sqlDelta "interpA" "SELECT A", sqlDelta "interpB" "SELECT B"])
        (lastFieldFrom "text" Option.none
          (toolJsonsOf [sqlDelta "interpA" "SELECT A", sqlDelta "interpB" "SELECT B"]))
        (lastFieldFrom "sql" Option.none
          (toolJsonsOf [sqlDelta "interpA" "SELECT A", sqlDelta "interpB" "SELECT B"])) :=
  ⟨by decide,
    drain_accumulates_text_and_last_fields
      [sqlDelta "interpA" "SELECT A", sqlDelta "interpB" "SELECT B"] (by decide)⟩

/-- C7: a malformed data line (its body does not decode) interleaved in a
stream contributes no event and does not end the parse: the output equals
the output of the same stream without that line, whatever came before or
after, so every well-formed line still produces its events. -/
theorem malformed_data_line_skipped (decode : String → Option Json)
    (prev : Option String) (xs ys : List String) (terr : Option String) (bad : String)
    (h1 : (pyStrip bad == "") = false)
    (h2 : pyStartsWith bad "event:" = false)
    (h3 : pyStartsWith bad "data:" = true)
    (h4 : decode (pySlice bad 6) = Option.none) :
    streamLoop decode prev (xs ++ bad :: ys) terr =
      streamLoop decode prev (xs ++ ys) terr := by
  induction xs generalizing prev with
  | nil =>
    simp only [List.nil_append]
    rw [streamLoop]
    simp [h1, h2, h3, h4]
  | cons t ts ih =>
    simp only [List.cons_append]
    rw [streamLoop, streamLoop]
    by_cases hb : (pyStrip t == "") = true
    · simp only [hb, if_true]; exact ih prev
    · simp only [hb, Bool.false_eq_true, if_false]
      by_cases he : pyStartsWith t "event:" = true
      · simp only [he, if_true]; exact ih (some (pyStrip t))
      · simp only [he, Bool.false_eq_true, if_false]
        by_cases hd : pyStartsWith t "data:" = true
        · simp only [hd, if_true]
          by_cases hm : (prev == some "event: message.delta") = true
          · simp only [hm, if_true]
            cases hdec : decode (pySlice t 6) with
            | none => exact ih prev
            | some d => rw [ih prev]
          · simp only [hm, Bool.false_eq_true, if_false]
            by_cases hee : (prev == some "event: error") = true
            · simp only [hee, if_true]; exact ih prev
            · simp only [hee, Bool.false_eq_true, if_false]; exact ih prev
        · simp only [hd, Bool.false_eq_true, if_false]
          by_cases hdone : pyStartsWith t "event: done" = true
          · simp only [hdone, if_true]
          · simp only [hdone, Bool.false_eq_true, if_false]; exact ih prev

/-- Witness for C7 with a malformed data line between two well-formed
lines. -/
theorem malformed_data_line_skipped_witness :
    (pyStrip "data: notjson" == "") = false ∧
    pyStartsWith "data: notjson" "event:" = false ∧
    pyStartsWith "data: notjson" "data:" = true ∧
    scenarioDecode (pySlice "data: notjson" 6) = Option.none ∧
    streamLoop scenarioDecode Option.none
        (["event: message.delta"] ++ "data: notjson" ::
          ["data: " ++ textPayload "Hi"]) Option.none =
      streamLoop scenarioDecode Option.none
        (["event: message.delta"] ++ ["data: " ++ textPayload "Hi"]) Option.none :=
  ⟨by decide, by decide, by decide, rfl,
    malformed_data_line_skipped scenarioDecode Option.none
      ["event: message.delta"] ["data: " ++ textPayload "Hi"] Option.none
      "data: notjson" (by decide) (by decide) (by decide) rfl⟩

/-- A line passing the dedicated done test also passes the general event
label test, which the source checks first; hence the dedicated done branch
is unreachable. -/
theorem startsWith_done_event (line : String)
    (h : pyStartsWith line "event: done" = true) :
    pyStartsWith line "event:" = true := by
  unfold pyStartsWith at h ⊢
  rw [List.isPrefixOf_iff_prefix] at h ⊢
  exact List.IsPrefix.trans (by decide) h

/-- A transport exception raised while streaming surfaces as one final
synthetic error event appended to the events of the delivered lines. -/
theorem streamLoop_transport_err (decode : String → Option Json) (e : String) :
    ∀ (lines : List String) (prev : Option String),
      ∃ evs, streamLoop decode prev lines (some e) = evs ++ [errEvent e] := by
  intro lines
  induction lines with
  | nil => intro prev; exact ⟨[], rfl⟩
  | cons t ts ih =>
    intro prev
    rw [streamLoop]
    by_cases hb : (pyStrip t == "") = true
    · simpa [hb] using ih prev
    · simp only [hb, Bool.false_eq_true, if_false]
      by_cases he : pyStartsWith t "event:" = true
      · simpa [he] using ih (some (pyStrip t))
      · simp only [he, Bool.false_eq_true, if_false]
        by_cases hd : pyStartsWith t "data:" = true
        · simp only [hd, if_true]
          by_cases hm : (prev == some "event: message.delta") = true
          · simp only [hm, if_true]
            cases hdec : decode (pySlice t 6) with
            | none => exact ih prev
            | some d =>
              obtain ⟨evs, hevs⟩ := ih prev
              exact ⟨d :: evs, by rw [hevs]; rfl⟩
          · simp only [hm, Bool.false_eq_true, if_false]
            by_cases hee : (prev == some "event: error") = true
            · simpa [hee] using ih prev
            · simpa [hee] using ih prev
        · simp only [hd, Bool.false_eq_true, if_false]
          by_cases hdone : pyStartsWith t "event: done" = true
          · exact absurd (startsWith_done_event t hdone) (by simp [he])
          · simpa [hdone] using ih prev

/-- Draining an event list that ends with the synthetic error event always
takes the early error return. -/
theorem drainEvents_err_end (e : String) :
    ∀ (evs : List Json) (st : String) (i s : Option Json),
      ∃ st' i', drainEvents (evs ++ [errEvent e]) st i s = .errored st' i' := by
  intro evs
  induction evs with
  | nil =>
    intro st i s
    refine ⟨st, i, ?_⟩
    simp [drainEvents, Json.hasKey, errEvent, Json.get?, lookupStr]
  | cons d rest ih =>
    intro st i s
    rw [List.cons_append, drainEvents]
    by_cases hd : d.hasKey "error" = true
    · exact ⟨st, i, by simp [hd]⟩
    · simp only [hd, Bool.false_eq_true, if_false]
      exact ih _ _ _

/-- A transport failure during the streaming call leaves the pipeline with
the failure shape: the fields after the streamed text and interpretation
are null, and no exception escapes. -/
theorem booking_agent_transport_failure (decode : String → Option Json)
    (runSql : Json → Option Table) (rank : Table → String → Except String String)
    (lines : List String) (e : String) (query : String) :
    ∃ st interp, booking_agent_run decode runSql rank lines (some e) query =
      .ok ⟨st, interp, Option.none, Option.none, Option.none⟩ := by
  obtain ⟨evs, hev⟩ := streamLoop_transport_err decode e lines Option.none
  obtain ⟨st', i', hdr⟩ := drainEvents_err_end e evs "" Option.none Option.none
  refine ⟨st', i', ?_⟩
  unfold booking_agent_run cortex_analyst_sql_stream
  rw [hev, hdr]

/-- C6: dispatching one hotel task per destination city, when exactly the
task of city i suffers a transport error during its streaming call, the
aggregate still holds one entry per city; the entry of city i carries the
failure shape (the fields after the streamed text and interpretation are
null) with no exception escaping, and every other entry is exactly the
standalone outcome of its own task, success shape included whenever that
task succeeds with a generated query. -/
theorem hotel_fanout_isolation (decode : String → Option Json)
    (runSql : Json → Option Table) (rank : Table → String → Except String String)
    (streamOf : String → List String × Option String)
    (cities : List String) (i : Nat) (hi : i < cities.length) (e : String)
    (herr : (streamOf (hotelQuery (cities.get ⟨i, hi⟩))).2 = some e)
    (hok : ∀ j, (hj : j < cities.length) → j ≠ i →
      ∃ r, create_hotel_booking_agent decode runSql rank
          (streamOf (hotelQuery (cities.get ⟨j, hj⟩))).1
          (streamOf (hotelQuery (cities.get ⟨j, hj⟩))).2
          (hotelQuery (cities.get ⟨j, hj⟩)) = .ok r ∧ r.sql_code.isSome = true) :
    (hotel_fanout decode runSql rank streamOf cities).length = cities.length ∧
    (∃ st interp, (hotel_fanout decode runSql rank streamOf cities)[i]? =
      some (.ok ⟨st, interp, Option.none, Option.none, Option.none⟩)) ∧
    (∀ j, (hj : j < cities.length) → j ≠ i →
      ∃ r, (hotel_fanout decode runSql rank streamOf cities)[j]? = some (.ok r) ∧
        r.sql_code.isSome = true) := by
  have hmap : ∀ (j : Nat) (hj : j < cities.length),
      (hotel_fanout decode runSql rank streamOf cities)[j]? =
        some (create_hotel_booking_agent decode runSql rank
          (streamOf (hotelQuery (cities.get ⟨j, hj⟩))).1
          (streamOf (hotelQuery (cities.get ⟨j, hj⟩))).2
          (hotelQuery (cities.get ⟨j, hj⟩))) := by
    intro j hj
    simp [hotel_fanout, List.getElem?_map, List.getElem?_eq_getElem hj]
  refine ⟨by simp [hotel_fanout], ?_, ?_⟩
  · obtain ⟨st, interp, hfail⟩ := booking_agent_transport_failure decode runSql rank
      (streamOf (hotelQuery (cities.get ⟨i, hi⟩))).1 e
      (hotelQuery (cities.get ⟨i, hi⟩))
    refine ⟨st, interp, ?_⟩
    rw [hmap i hi]
    unfold create_hotel_booking_agent
    rw [herr, hfail]
  · intro j hj hne
    obtain ⟨r, hr, hsql⟩ := hok j hj hne
    exact ⟨r, by rw [hmap j hj, hr], hsql⟩

/-- Witness for C6 with two cities where the first task fails with a
transport error and the second succeeds. -/
theorem hotel_fanout_isolation_witness :
    (witnessStreamOf (hotelQuery "Mumbai")).2 = some "connection reset" ∧
    ((hotel_fanout scenarioDecode witnessRunSql witnessRank witnessStreamOf
        ["Mumbai", "Pune"]).length = (["Mumbai", "Pune"] : List String).length ∧
      (∃ st interp, (hotel_fanout scenarioDecode witnessRunSql witnessRank
          witnessStreamOf ["Mumbai", "Pune"])[0]? =
        some (.ok ⟨st, interp, Option.none, Option.none, Option.none⟩)) ∧
      (∀ j, (hj : j < (["Mumbai", "Pune"] : List String).length) → j ≠ 0 →
        ∃ r, (hotel_fanout scenarioDecode witnessRunSql witnessRank witnessStreamOf
            ["Mumbai", "Pune"])[j]? = some (.ok r) ∧ r.sql_code.isSome = true)) :=
  ⟨rfl,
    hotel_fanout_isolation scenarioDecode witnessRunSql witnessRank witnessStreamOf
      ["Mumbai", "Pune"] 0 (by decide) "connection reset" rfl
      (by
        intro j hj hne
        have hj2 : j < 2 := by simpa using hj
        interval_cases j
        · exact absurd rfl hne
        · exact ⟨_, rfl, rfl⟩)⟩

/-- C10: for every query the activity planner returns a result of four
components (against the five of the flight and hotel agents), whose first
two components are the empty string, whose third is the fixed no-activities
message when the aggregated activities table is empty and the generated
day-wise plan text otherwise, and whose fourth is that possibly empty
table. -/
theorem activity_agent_shape (litEval : String → Option PyVal)
    (model : String → String) (contextStr : String)
    (searchDf : String → Option Table)
    (planFn : Table → String → String → List String → String)
    (q : String) :
    ∃ src dests t,
      create_activity_planner_agent litEval model contextStr searchDf planFn q =
        ("", "",
          (if !t.isEmptyT then planFn t q src dests else "No activities found."),
          t) := by
  refine ⟨_, _, _, rfl⟩

end Travel
